import Mathlib

/-
Shallow embedding of the ACPI controller emulation in `src/src/acpi.c`.

Conventions used throughout this development:

* C machine integers become `Nat`.  A register of width `w` bits is stored as a
  `Nat`; in C every value stored in such a register is `< 2 ^ w`.
* The C idiom `x & ~y` on a `w`-bit register (with `y` within the register's
  width) is rendered as `x &&& (W ^^^ y)` where `W = 2 ^ w - 1` is the
  register's width mask (`0xffff` for 16-bit registers, `0xffffffff` for
  32-bit ones, `0xffffffffffffffff` for `uint64_t` values).  For all values in
  range the two agree bit for bit.
* Calls to external collaborators (IRQ lines, SMI line, platform power
  management, NVRAM, resets, the scheduled-callback service...) are modelled as
  an ordered trace of `Effect`s; stateful operations return
  `acpi_t × List Effect`.
* The free-running reference clock (`acpi_clock_get`, derived from `tsc`) is
  passed in as an explicit `clock : Nat` argument where a function samples it.
-/

/-- Modelled from the spec: the "fixed timer frequency constant" used to convert
PM-timer ticks to wall time.  The numeric constant `ACPI_TIMER_FREQ` lives in
the repository's `86box/acpi.h` header, which is not among the provided
sources; the value below is the standard ACPI PM timer frequency in Hz. -/
def ACPI_TIMER_FREQ : Nat := 3579545

/-- Modelled from the spec: timer-overflow status bit of PMSTS.  The bit
constants live in the missing `86box/acpi.h` header; positions are corroborated
by the code (the comment "Timer Overflow Interrupt Enable" on `pmen & 1`, the
PMSTS clearable mask `0x8d31` and the PMEN valid mask `0x0521`). -/
def TMROF_STS : Nat := 0x01

/-- Modelled from the spec: bus-master-activity status bit of PMSTS (missing
header; see `TMROF_STS`). -/
def BM_STS : Nat := 0x10

/-- Modelled from the spec: timer-overflow interrupt enable bit of PMEN
(missing header; see `TMROF_STS`). -/
def TMROF_EN : Nat := 0x01

/-- Modelled from the spec: global-release interrupt enable bit of PMEN
(missing header; see `TMROF_STS`). -/
def GBL_EN : Nat := 0x20

/-- Modelled from the spec: power-button interrupt enable bit of PMEN
(missing header; see `TMROF_STS`). -/
def PWRBTN_EN : Nat := 0x100

/-- Modelled from the spec: RTC-alarm interrupt enable bit of PMEN
(missing header; see `TMROF_STS`). -/
def RTC_EN : Nat := 0x400

/-- Modelled from the spec: sleep-type effect flag "power-off" (the `SUS_*`
flags live in the missing `86box/acpi.h`; the spec only requires six distinct
effect flags, rendered here as distinct bits). -/
def SUS_POWER_OFF : Nat := 0x01

/-- Modelled from the spec: sleep-type effect flag "generic suspend". -/
def SUS_SUSPEND : Nat := 0x02

/-- Modelled from the spec: sleep-type effect flag "persist suspend marker to
NVRAM". -/
def SUS_NVR : Nat := 0x04

/-- Modelled from the spec: sleep-type effect flag "reset CPU". -/
def SUS_RESET_CPU : Nat := 0x08

/-- Modelled from the spec: sleep-type effect flag "reset PCI bus". -/
def SUS_RESET_PCI : Nat := 0x10

/-- Modelled from the spec: sleep-type effect flag "reset cache". -/
def SUS_RESET_CACHE : Nat := 0x20

/-- The six chipset profiles (`VEN_*` classification from the device tables at
the bottom of `acpi.c`). -/
inductive Vendor where
  | VEN_ALI
  | VEN_INTEL
  | VEN_SMC
  | VEN_VIA
  | VEN_VIA_596B
  | VEN_INTEL_ICH2
deriving DecidableEq

/-- One call to an external collaborator, in program order.  Each constructor
corresponds to one C call site category in `acpi.c`. -/
inductive Effect where
  | pciSetIrq (slot pin : Nat)
  | pciClearIrq (slot pin : Nat)
  | pciSetMirq (mirq level : Nat)
  | pciClearMirq (mirq level : Nat)
  | timerOnAuto
  | timerStop
  | smiPulse
  | rtcStatusClear
  | nvramWrite (reg v : Nat)
  | resetAllPci
  | cpuAltResetClear
  | pciReset
  | keyboardReset
  | memA20AltClear
  | memA20Recalc
  | flushCaches
  | cpuReset
  | platPause (v : Nat)
  | scheduleResume (usec : Nat)
  | powerOff
  | apmSetDoSmi (b : Bool)
  | tcoWrite (addr v : Nat)
  | trapUpdate
deriving DecidableEq

/-- The register file (`acpi_regs_t`).  Width conventions (16- or 32-bit)
follow the shift-and-mask usage in `acpi.c`. -/
structure acpi_regs_t where
  pmsts : Nat
  pmen : Nat
  pmcntrl : Nat
  gpsts : Nat
  gpsts1 : Nat
  gpen : Nat
  gpen1 : Nat
  gpcntrl : Nat
  pcntrl : Nat
  plvl2 : Nat
  plvl3 : Nat
  glbsts : Nat
  glben : Nat
  glbctl : Nat
  devsts : Nat
  devctl : Nat
  smi_en : Nat
  smi_sts : Nat
  mon_smi : Nat
  devact_sts : Nat
  devtrap_en : Nat
  bus_addr_track : Nat
  bus_cyc_track : Nat
  gpscists : Nat
  gpscien : Nat
  gpsmien : Nat
  pscntrl : Nat
  padsts : Nat
  paden : Nat
  gptren : Nat
  gpio_dir : Nat
  gpio_val : Nat
  gpo_val : Nat
  gpi_val : Nat
  extsmi_val : Nat
  extiotrapsts : Nat
  extiotrapen : Nat
  smicmd : Nat
  timer32 : Bool
  smi_lock : Bool
  smi_active : Bool
  ali_soft_smi : Nat
deriving DecidableEq

/-- The device instance (`acpi_t`): profile, register file, the per-profile
sleep-type table, and the IRQ routing configuration.  Collaborator pointers
(`nvr`, `tco`, `apm`, `i2c`) appear only through `Effect`s; `trap_update`
keeps just the "is a callback registered" bit. -/
structure acpi_t where
  vendor : Vendor
  regs : acpi_regs_t
  suspend_types : List Nat
  slot : Nat
  irq_mode : Nat
  irq_pin : Nat
  irq_line : Nat
  mirq_is_level : Nat
  trap_update : Bool
deriving DecidableEq

/-- `acpi_timer_get`: the current PM-timer value, the reference clock truncated
to the configured width. -/
def acpi_timer_get (dev : acpi_t) (clock : Nat) : Nat :=
  if dev.regs.timer32 then clock &&& 0xffffffff else clock &&& 0xffffff

/-- `acpi_get_overflow_period`, integer part: the reference-clock ticks until
the next scheduled overflow wake-up.  The C computes
`overflow_time = (timer + 0x80000000LL) & ~0x7fffffffLL` (32-bit width) or
`(timer + 0x800000LL) & ~0x7fffffLL` (24-bit width) over `uint64_t`, then
`overflow_time - timer`. -/
def acpi_get_overflow_period_ticks (dev : acpi_t) (clock : Nat) : Nat :=
  let overflow_time :=
    if dev.regs.timer32 then
      (clock + 0x80000000) &&& (0xffffffffffffffff ^^^ 0x7fffffff)
    else
      (clock + 0x800000) &&& (0xffffffffffffffff ^^^ 0x7fffff)
  overflow_time - clock

/-- `acpi_get_overflow_period`: the tick count converted to wall time,
`(time_to_overflow / ACPI_TIMER_FREQ) * 1000000.0`, modelled exactly over ℚ. -/
def acpi_get_overflow_period (dev : acpi_t) (clock : Nat) : ℚ :=
  ((acpi_get_overflow_period_ticks dev clock : ℚ) / (ACPI_TIMER_FREQ : ℚ)) * 1000000

/-- `acpi_timer_update`: re-arm the one-shot overflow timer
(`timer_on_auto(&dev->timer, acpi_get_overflow_period(dev))`) when `enable`,
else cancel it (`timer_stop`). -/
def acpi_timer_update (dev : acpi_t) (enable : Bool) : List Effect :=
  if enable then [Effect.timerOnAuto] else [Effect.timerStop]

/-- `acpi_update_irq`: recompute the SCI line from PMSTS/PMEN (plus `BM_STS`
for the SMC profile), drive the configured IRQ line, and finally recompute the
overflow timer's armed state.  The function mutates no register. -/
def acpi_update_irq (dev : acpi_t) : List Effect :=
  let sci_level0 := (dev.regs.pmsts &&& dev.regs.pmen) &&&
    (RTC_EN ||| PWRBTN_EN ||| GBL_EN ||| TMROF_EN)
  let sci_level :=
    if dev.vendor = Vendor.VEN_SMC then sci_level0 ||| (dev.regs.pmsts &&& BM_STS)
    else sci_level0
  let irq :=
    if sci_level ≠ 0 then
      if dev.irq_mode = 1 then [Effect.pciSetIrq dev.slot dev.irq_pin]
      else if dev.irq_mode = 2 then [Effect.pciSetMirq 5 dev.mirq_is_level]
      else [Effect.pciSetMirq (0xf0 ||| dev.irq_line) 1]
    else
      if dev.irq_mode = 1 then [Effect.pciClearIrq dev.slot dev.irq_pin]
      else if dev.irq_mode = 2 then [Effect.pciClearMirq 5 dev.mirq_is_level]
      else [Effect.pciClearMirq (0xf0 ||| dev.irq_line) 1]
  irq ++ acpi_timer_update dev
    ((dev.regs.pmen &&& TMROF_EN != 0) && (dev.regs.pmsts &&& TMROF_STS == 0))

/-- `acpi_raise_smi`: per-profile SMI arbitration.  VIA profiles use the
`smi_lock`/`smi_active` pair; Intel clears GLBCTL bit 16; ALi latches
`ali_soft_smi`; ICH2 (outside the `glbctl & 1` gate) requires `smi_en & 1`. -/
def acpi_raise_smi (dev : acpi_t) (do_smi : Nat) : acpi_t × List Effect :=
  if dev.regs.glbctl &&& 0x01 ≠ 0 then
    if dev.vendor = Vendor.VEN_VIA ∨ dev.vendor = Vendor.VEN_VIA_596B then
      if dev.regs.smi_lock = false ∨ dev.regs.smi_active = false then
        ({ dev with regs.smi_active := true },
         if do_smi ≠ 0 then [Effect.smiPulse] else [])
      else (dev, [])
    else if dev.vendor = Vendor.VEN_INTEL ∨ dev.vendor = Vendor.VEN_ALI then
      let es := if do_smi ≠ 0 then [Effect.smiPulse] else []
      if dev.vendor = Vendor.VEN_INTEL then
        ({ dev with regs.glbctl := dev.regs.glbctl &&& (0xffffffff ^^^ 0x00010000) }, es)
      else
        ({ dev with regs.ali_soft_smi := 1 }, es)
    else if dev.vendor = Vendor.VEN_SMC then
      (dev, if do_smi ≠ 0 then [Effect.smiPulse] else [])
    else (dev, [])
  else if dev.vendor = Vendor.VEN_INTEL_ICH2 ∧ do_smi ≠ 0 ∧ dev.regs.smi_en &&& 1 ≠ 0 then
    (dev, [Effect.smiPulse])
  else (dev, [])

/-- `acpi_ali_soft_smi_status_read`: `return dev->regs.ali_soft_smi = 1;` —
the read forces the field to 1 and returns that value. -/
def acpi_ali_soft_smi_status_read (dev : acpi_t) : Nat × acpi_t :=
  (1, { dev with regs.ali_soft_smi := 1 })

/-- `acpi_ali_soft_smi_status_write`. -/
def acpi_ali_soft_smi_status_write (dev : acpi_t) (soft_smi : Nat) : acpi_t :=
  { dev with regs.ali_soft_smi := soft_smi }

/-- `acpi_reg_write_common_regs`: the common register block (PMSTS, PMEN,
PMCNTRL) shared by all profiles, including the sleep-state machine triggered by
a PMCNTRL write with the sleep-enable bit (0x20 in the high byte).  Mirrors the
C control flow: the ICH2 sleep-SMI trap is checked first; a decoded
`SUS_POWER_OFF` returns before the PMCNTRL merge; otherwise the suspend
effects run and PMCNTRL is merged under its valid mask `0x3f07`. -/
def acpi_reg_write_common_regs (size addr0 val : Nat) (dev : acpi_t) :
    acpi_t × List Effect :=
  let addr := addr0 &&& 0x3f
  let shift16 := (addr &&& 1) <<< 3
  if addr = 0x00 ∨ addr = 0x01 then
    let d1 := { dev with
      regs.pmsts := dev.regs.pmsts &&& (0xffff ^^^ ((val <<< shift16) &&& 0x8d31)) }
    let es := if addr = 0x01 ∧ val &&& 0x04 ≠ 0 then [Effect.rtcStatusClear] else []
    (d1, es ++ acpi_update_irq d1)
  else if addr = 0x02 ∨ addr = 0x03 then
    let d1 := { dev with
      regs.pmen := ((dev.regs.pmen &&& (0xffff ^^^ (0xff <<< shift16))) |||
        (val <<< shift16)) &&& 0x0521 }
    (d1, acpi_update_irq d1)
  else if addr = 0x04 ∨ addr = 0x05 then
    if addr = 0x05 ∧ val &&& 0x20 ≠ 0 ∧ val &&& 4 ≠ 0 ∧
        dev.regs.smi_en &&& 0x00000010 ≠ 0 ∧ dev.vendor = Vendor.VEN_INTEL_ICH2 then
      let d1 := { dev with regs.smi_sts := dev.regs.smi_sts ||| 0x00000010 }
      let r := acpi_raise_smi d1 1
      ({ r.1 with
        regs.pmcntrl := ((r.1.regs.pmcntrl &&& (0xffff ^^^ (0xff <<< shift16))) |||
          (val <<< shift16)) &&& 0x3f07 }, r.2)
    else if addr = 0x05 ∧ val &&& 0x20 ≠ 0 then
      let sus_typ := dev.suspend_types.getD ((val >>> 2) &&& 7) 0
      if sus_typ &&& SUS_POWER_OFF ≠ 0 then
        (dev, [Effect.powerOff])
      else
        let es :=
          if sus_typ &&& SUS_SUSPEND ≠ 0 then
            (if sus_typ &&& SUS_NVR ≠ 0 then [Effect.nvramWrite 0x000f 0xff] else []) ++
            (if sus_typ &&& SUS_RESET_PCI ≠ 0 then [Effect.resetAllPci] else []) ++
            (if sus_typ &&& SUS_RESET_CPU ≠ 0 then [Effect.cpuAltResetClear] else []) ++
            (if sus_typ &&& SUS_RESET_PCI ≠ 0 then
              [Effect.pciReset, Effect.keyboardReset,
               Effect.memA20AltClear, Effect.memA20Recalc] else []) ++
            (if sus_typ &&& (SUS_RESET_CPU ||| SUS_RESET_CACHE) ≠ 0 then
              [Effect.flushCaches] else []) ++
            (if sus_typ &&& SUS_RESET_CPU ≠ 0 then [Effect.cpuReset] else []) ++
            [Effect.platPause 1, Effect.scheduleResume 50]
          else []
        ({ dev with
          regs.pmcntrl := ((dev.regs.pmcntrl &&& (0xffff ^^^ (0xff <<< shift16))) |||
            (val <<< shift16)) &&& 0x3f07 }, es)
    else
      ({ dev with
        regs.pmcntrl := ((dev.regs.pmcntrl &&& (0xffff ^^^ (0xff <<< shift16))) |||
          (val <<< shift16)) &&& 0x3f07 }, [])
  else (dev, [])

/-- `acpi_reg_write_ali`: the ALi M7101 profile write table; unmatched offsets
fall through to `acpi_reg_write_common_regs` followed by the ALi-specific
GBL_RLS side effects.  Note the GPE1_EN case (offsets 0x1e/0x1f) merges into
the current value of `gpen` (GPE0's enable register), exactly as the C source
does. -/
def acpi_reg_write_ali (size addr0 val : Nat) (dev : acpi_t) :
    acpi_t × List Effect :=
  let addr := addr0 &&& 0x3f
  let shift16 := (addr &&& 1) <<< 3
  let shift32 := (addr &&& 3) <<< 3
  if 0x10 ≤ addr ∧ addr ≤ 0x13 then
    ({ dev with
      regs.pcntrl := ((dev.regs.pcntrl &&& (0xffffffff ^^^ (0xff <<< shift32))) |||
        (val <<< shift32)) &&& 0x00023e1e }, [])
  else if addr = 0x14 then ({ dev with regs.plvl2 := val }, [])
  else if addr = 0x15 then ({ dev with regs.plvl3 := val }, [])
  else if addr = 0x18 ∨ addr = 0x19 then
    ({ dev with
      regs.gpsts := dev.regs.gpsts &&& (0xffff ^^^ ((val <<< shift16) &&& 0x0d07)) }, [])
  else if addr = 0x1a ∨ addr = 0x1b then
    ({ dev with
      regs.gpen := ((dev.regs.gpen &&& (0xffff ^^^ (0xff <<< shift16))) |||
        (val <<< shift16)) &&& 0x0d07 }, [])
  else if addr = 0x1c ∨ addr = 0x1d then
    ({ dev with
      regs.gpsts1 := dev.regs.gpsts1 &&& (0xffff ^^^ ((val <<< shift16) &&& 0x0c01)) }, [])
  else if addr = 0x1e ∨ addr = 0x1f then
    ({ dev with
      regs.gpen1 := ((dev.regs.gpen &&& (0xffff ^^^ (0xff <<< shift16))) |||
        (val <<< shift16)) &&& 0x0c01 }, [])
  else if 0x20 ≤ addr ∧ addr ≤ 0x27 then
    ({ dev with
      regs.gpcntrl := ((dev.regs.gpcntrl &&& (0xffffffff ^^^ (0xff <<< shift32))) |||
        (val <<< shift32)) &&& 0x00000001 }, [])
  else if addr = 0x30 then ({ dev with regs.pmcntrl := val &&& 1 }, [])
  else
    let r := acpi_reg_write_common_regs size addr val dev
    if addr = 0x00 ∧ r.1.regs.pmsts &&& 0x20 = 0 then
      ({ r.1 with regs.gpcntrl := r.1.regs.gpcntrl &&& (0xffffffff ^^^ 0x0002) }, r.2)
    else if addr = 0x04 ∧ r.1.regs.pmcntrl &&& 0x0004 ≠ 0 then
      let d2 : acpi_t := { r.1 with regs.gpsts1 := r.1.regs.gpsts1 ||| 0x01 }
      if d2.regs.gpen1 &&& 0x01 ≠ 0 then
        let r2 := acpi_raise_smi d2 1
        (r2.1, r.2 ++ r2.2)
      else (d2, r.2)
    else r

/-- `acpi_reg_write_intel_ich2`: the Intel ICH2 profile write table; unmatched
offsets fall through to the common block, then the SLP-SMI status side effect
(offset 4) and the trailing `acpi_update_irq` run.  As in the C source, the
GPE1_EN case (offsets 0x2e/0x2f) merges into the current value of `gpen`
(GPE0's enable register). -/
def acpi_reg_write_intel_ich2 (size addr0 val : Nat) (dev : acpi_t) :
    acpi_t × List Effect :=
  let addr := addr0 &&& 0x7f
  let shift16 := (addr &&& 1) <<< 3
  let shift32 := (addr &&& 3) <<< 3
  if 0x10 ≤ addr ∧ addr ≤ 0x13 then
    ({ dev with
      regs.pcntrl := ((dev.regs.pcntrl &&& (0xffffffff ^^^ (0xff <<< shift32))) |||
        (val <<< shift32)) &&& 0x000201fe }, [])
  else if addr = 0x28 ∨ addr = 0x29 then
    ({ dev with
      regs.gpsts := dev.regs.gpsts &&& (0xffff ^^^ ((val <<< shift16) &&& 0x09fb)) }, [])
  else if addr = 0x2a ∨ addr = 0x2b then
    ({ dev with
      regs.gpen := ((dev.regs.gpen &&& (0xffff ^^^ (0xff <<< shift16))) |||
        (val <<< shift16)) &&& 0x097d }, [])
  else if addr = 0x2c ∨ addr = 0x2d then
    ({ dev with
      regs.gpsts1 := dev.regs.gpsts1 &&& (0xffff ^^^ ((val <<< shift16) &&& 0x09fb)) }, [])
  else if addr = 0x2e ∨ addr = 0x2f then
    ({ dev with
      regs.gpen1 := ((dev.regs.gpen &&& (0xffff ^^^ (0xff <<< shift16))) |||
        (val <<< shift16)) &&& 0x097d }, [])
  else if 0x30 ≤ addr ∧ addr ≤ 0x33 then
    let d1 := { dev with
      regs.smi_en := ((dev.regs.smi_en &&& (0xffffffff ^^^ (0xff <<< shift32))) |||
        (val <<< shift32)) &&& 0x0000867f }
    if addr = 0x30 then
      let es := [Effect.apmSetDoSmi (val &&& 0x20 != 0)]
      if val &&& 0x80 ≠ 0 then
        let d2 := { d1 with regs.glbsts := d1.regs.glbsts ||| 0x0020 }
        (d2, es ++ acpi_update_irq d2)
      else (d1, es)
    else (d1, [])
  else if 0x34 ≤ addr ∧ addr ≤ 0x37 then
    ({ dev with
      regs.smi_sts := dev.regs.smi_sts &&&
        (0xffffffff ^^^ ((val <<< shift32) &&& 0x0001ff7c)) }, [])
  else if addr = 0x40 ∨ addr = 0x41 then
    ({ dev with
      regs.mon_smi := ((dev.regs.mon_smi &&& (0xffff ^^^ (0xff <<< shift16))) |||
        (val <<< shift16)) &&& 0x097d }, [])
  else if addr = 0x44 ∨ addr = 0x45 then
    ({ dev with
      regs.devact_sts := dev.regs.devact_sts &&&
        (0xffff ^^^ ((val <<< shift16) &&& 0x3fef)) }, [])
  else if addr = 0x48 ∨ addr = 0x49 then
    let d1 := { dev with
      regs.devtrap_en := ((dev.regs.devtrap_en &&& (0xffff ^^^ (0xff <<< shift16))) |||
        (val <<< shift16)) &&& 0x3c2f }
    (d1, if dev.trap_update then [Effect.trapUpdate] else [])
  else if addr = 0x4c ∨ addr = 0x4d then
    ({ dev with
      regs.bus_addr_track := ((dev.regs.bus_addr_track &&&
        (0xffff ^^^ (0xff <<< shift16))) ||| (val <<< shift16)) &&& 0x097d }, [])
  else if addr = 0x4e then ({ dev with regs.bus_cyc_track := val }, [])
  else if 0x60 ≤ addr ∧ addr ≤ 0x70 then (dev, [Effect.tcoWrite addr val])
  else
    let r := acpi_reg_write_common_regs size addr val dev
    let r2 :=
      if addr = 0x04 ∧ val &&& 4 ≠ 0 ∧ r.1.regs.smi_en &&& 4 ≠ 0 then
        let d2 := { r.1 with regs.smi_sts := 0x00000004 }
        let rs := acpi_raise_smi d2 1
        (rs.1, r.2 ++ rs.2)
      else r
    if addr = 0x02 ∨ val &&& 0x20 ≠ 0 ∨ r2.1.regs.glbsts &&& 0x0020 ≠ 0 then
      (r2.1, r2.2 ++ acpi_update_irq r2.1)
    else r2

/-- `acpi_aux_reg_read_smc`: the SMC profile's auxiliary window read table
(offsets masked to 0x07).  Offsets 0x00/0x01 ("SCI Status Register") return
bytes of the processor-control register `pcntrl`. -/
def acpi_aux_reg_read_smc (size addr0 : Nat) (dev : acpi_t) : Nat :=
  let addr := addr0 &&& 0x07
  let shift16 := (addr &&& 1) <<< 3
  if addr = 0x00 ∨ addr = 0x01 then (dev.regs.pcntrl >>> shift16) &&& 0xff
  else if addr = 0x02 ∨ addr = 0x03 then (dev.regs.gpscien >>> shift16) &&& 0xff
  else if addr = 0x04 ∨ addr = 0x05 then (dev.regs.glbsts >>> shift16) &&& 0xff
  else if addr = 0x06 then dev.regs.glben &&& 0xff
  else if addr = 0x07 then dev.regs.glbctl &&& 0xff
  else 0

/-- `acpi_aux_reg_write_smc`: the SMC profile's auxiliary window write table.
Offsets 0x00/0x01 write-1-to-clear the dedicated `gpscists` field under mask
`0x000c`; offset 0x07 carries the BIOS_RLS side effects. -/
def acpi_aux_reg_write_smc (size addr0 val : Nat) (dev : acpi_t) :
    acpi_t × List Effect :=
  let addr := addr0 &&& 0x07
  let shift16 := (addr &&& 1) <<< 3
  if addr = 0x00 ∨ addr = 0x01 then
    ({ dev with
      regs.gpscists := dev.regs.gpscists &&&
        (0xffff ^^^ ((val <<< shift16) &&& 0x000c)) }, [])
  else if addr = 0x02 ∨ addr = 0x03 then
    ({ dev with
      regs.gpscien := ((dev.regs.gpscien &&& (0xffff ^^^ (0xff <<< shift16))) |||
        (val <<< shift16)) &&& 0x3fff }, [])
  else if addr = 0x04 ∨ addr = 0x05 then
    ({ dev with
      regs.glbsts := dev.regs.glbsts &&& (0xffff ^^^ ((val <<< shift16) &&& 0x001f)) }, [])
  else if addr = 0x06 then
    ({ dev with regs.glben := val &&& 0x03 }, [])
  else if addr = 0x07 then
    let d1 : acpi_t := { dev with regs.glbctl := val &&& 0x03 }
    let r1 :=
      if d1.regs.glbctl &&& 0x0001 ≠ 0 then
        let d2 := { d1 with regs.pmsts := d1.regs.pmsts ||| 0x20 }
        if d2.regs.pmen &&& 0x20 ≠ 0 then (d2, acpi_update_irq d2) else (d2, ([] : List Effect))
      else (d1, [])
    if r1.1.regs.glbctl &&& 0x0002 ≠ 0 then
      let d3 : acpi_t := { r1.1 with regs.pmsts := r1.1.regs.pmsts ||| 0x10 }
      if d3.regs.pmcntrl &&& 0x02 ≠ 0 then (d3, r1.2 ++ acpi_update_irq d3) else (d3, r1.2)
    else r1
  else (dev, [])

/-- All-zero register file, the state `acpi_reset` establishes with
`memset(&dev->regs, 0x00, sizeof(acpi_regs_t))` before profile-specific
adjustments. -/
def regs0 : acpi_regs_t :=
  ⟨0, 0, 0, 0, 0, 0, 0, 0, 0, 0, 0, 0, 0, 0, 0, 0, 0, 0, 0, 0, 0,
   0, 0, 0, 0, 0, 0, 0, 0, 0, 0, 0, 0, 0, 0, 0, 0, 0, false, false, false, 0⟩

/-- The ALi sleep-type table from `acpi_init`. -/
def susALI : List Nat :=
  [SUS_POWER_OFF, SUS_POWER_OFF,
   SUS_SUSPEND ||| SUS_NVR ||| SUS_RESET_CPU ||| SUS_RESET_PCI,
   SUS_SUSPEND, 0, 0, 0, 0]

/-- The Intel PIIX4 sleep-type table from `acpi_init`. -/
def susINTEL : List Nat :=
  [SUS_POWER_OFF,
   SUS_SUSPEND ||| SUS_NVR ||| SUS_RESET_CPU ||| SUS_RESET_PCI,
   SUS_SUSPEND ||| SUS_RESET_CPU,
   SUS_SUSPEND ||| SUS_RESET_CACHE,
   SUS_SUSPEND, 0, 0, 0]

/-- The Intel ICH2 sleep-type table from `acpi_init`. -/
def susICH2 : List Nat :=
  [0, SUS_SUSPEND ||| SUS_RESET_CPU, 0, 0, 0,
   SUS_SUSPEND ||| SUS_NVR ||| SUS_RESET_CPU ||| SUS_RESET_PCI,
   SUS_POWER_OFF, SUS_POWER_OFF]

/-- The VIA sleep-type table from `acpi_init`. -/
def susVIA : List Nat :=
  [SUS_POWER_OFF, 0, SUS_SUSPEND, 0, 0, 0, 0, 0]

/-- A concrete ALi device: freshly reset registers except that GPE1_EN holds
its full valid mask `0x0c01` while GPE0_EN is zero. -/
def devALI : acpi_t :=
  { vendor := Vendor.VEN_ALI, regs := { regs0 with gpen1 := 0x0c01 },
    suspend_types := susALI, slot := 0, irq_mode := 2, irq_pin := 0,
    irq_line := 9, mirq_is_level := 0, trap_update := false }

/-- A concrete Intel ICH2 device: SLP_SMI_EN (SMI_EN bit 4) set, GPE1_EN
holding its full valid mask `0x097d`, GPE0_EN zero. -/
def devICH2 : acpi_t :=
  { vendor := Vendor.VEN_INTEL_ICH2,
    regs := { regs0 with smi_en := 0x10, gpen1 := 0x097d },
    suspend_types := susICH2, slot := 0, irq_mode := 0, irq_pin := 0,
    irq_line := 9, mirq_is_level := 0, trap_update := false }

/-- A concrete Intel ICH2 device with both SLP_SMI_EN (bit 4) and GBL_SMI_EN
(bit 0) of SMI_EN set and `glbctl = 0`. -/
def devICH2g : acpi_t :=
  { vendor := Vendor.VEN_INTEL_ICH2, regs := { regs0 with smi_en := 0x11 },
    suspend_types := susICH2, slot := 0, irq_mode := 0, irq_pin := 0,
    irq_line := 9, mirq_is_level := 0, trap_update := false }

/-- A concrete VIA device at power-on defaults: `glbctl = 0`, SMI lock clear,
no SMI active. -/
def devVIA : acpi_t :=
  { vendor := Vendor.VEN_VIA, regs := regs0, suspend_types := susVIA,
    slot := 0, irq_mode := 0, irq_pin := 0, irq_line := 9,
    mirq_is_level := 0, trap_update := false }

/-- A concrete VIA device with SMI generation enabled (`glbctl` bit 0 set). -/
def devVIAg : acpi_t :=
  { vendor := Vendor.VEN_VIA, regs := { regs0 with glbctl := 0x01 },
    suspend_types := susVIA, slot := 0, irq_mode := 0, irq_pin := 0,
    irq_line := 9, mirq_is_level := 0, trap_update := false }

/-- A concrete Intel PIIX4 device. -/
def devINTEL : acpi_t :=
  { vendor := Vendor.VEN_INTEL, regs := regs0, suspend_types := susINTEL,
    slot := 0, irq_mode := 1, irq_pin := 0, irq_line := 9,
    mirq_is_level := 0, trap_update := false }

/-- A concrete device with the 32-bit timer width configured. -/
def dev32 : acpi_t :=
  { vendor := Vendor.VEN_INTEL, regs := { regs0 with timer32 := true },
    suspend_types := susINTEL, slot := 0, irq_mode := 1, irq_pin := 0,
    irq_line := 9, mirq_is_level := 0, trap_update := false }

/-- A concrete SMC device with a recognisable processor-control register value
and every clearable SCI-status bit set. -/
def devSMC : acpi_t :=
  { vendor := Vendor.VEN_SMC,
    regs := { regs0 with pcntrl := 0x00023e1e, gpscists := 0x000c, gpscien := 0x3fff },
    suspend_types := [], slot := 0, irq_mode := 0, irq_pin := 0,
    irq_line := 9, mirq_is_level := 0, trap_update := false }

/-- A concrete device whose PMSTS holds every clearable status bit. -/
def devC3 : acpi_t :=
  { vendor := Vendor.VEN_INTEL, regs := { regs0 with pmsts := 0x8d31 },
    suspend_types := susINTEL, slot := 0, irq_mode := 1, irq_pin := 0,
    irq_line := 9, mirq_is_level := 0, trap_update := false }

/-- Bits of `x &&& z` are a subset of those of `x`, so or-ing `x` back changes
nothing.  Used for the "a status write never sets a bit" direction. -/
theorem and_or_cancel (V z : Nat) : (V &&& z) ||| V = V := by
  apply Nat.eq_of_testBit_eq
  intro i
  simp only [Nat.testBit_or, Nat.testBit_and]
  cases V.testBit i <;> cases z.testBit i <;> rfl

/-- Masking a `w`-bit value with the window `2 ^ w - 2 ^ k` (the rendering of
`& ~(2 ^ k - 1)` on a `w`-bit integer) clears its low `k` bits. -/
theorem and_two_pow_window (x k w : Nat) (hx : x < 2 ^ w) (hk : k ≤ w) :
    x &&& (2 ^ w - 2 ^ k) = 2 ^ k * (x / 2 ^ k) := by
  have hmask : 2 ^ w - 2 ^ k = (2 ^ (w - k) - 1) <<< k := by
    rw [Nat.shiftLeft_eq, Nat.sub_mul, ← Nat.pow_add, Nat.one_mul]
    congr 2
    omega
  have hrhs : 2 ^ k * (x / 2 ^ k) = (x >>> k) <<< k := by
    rw [Nat.shiftLeft_eq, Nat.shiftRight_eq_div_pow, Nat.mul_comm]
  rw [hmask, hrhs]
  apply Nat.eq_of_testBit_eq
  intro i
  simp only [Nat.testBit_and, Nat.testBit_shiftLeft, Nat.testBit_two_pow_sub_one,
    Nat.testBit_shiftRight]
  by_cases hki : k ≤ i
  · by_cases hiw : i < w
    · have h1 : i - k < w - k := by omega
      have h2 : k + (i - k) = i := by omega
      simp [hki, h1, h2]
    · have hxi : x.testBit i = false :=
        Nat.testBit_lt_two_pow
          (lt_of_lt_of_le hx (Nat.pow_le_pow_right (by norm_num) (by omega)))
      have h2 : k + (i - k) = i := by omega
      simp [hki, h2, hxi]
  · simp [hki]

/-- Rounding `t` up past the next multiple of `2 ^ k` (the C idiom
`((t + 2 ^ k) & ~(2 ^ k - 1)) - t` over a `w`-bit integer) leaves exactly
`2 ^ k - t % 2 ^ k` ticks. -/
theorem round_up_and_sub (t k w : Nat) (hw : k ≤ w) (ht : t + 2 ^ k < 2 ^ w) :
    ((t + 2 ^ k) &&& (2 ^ w - 2 ^ k)) - t = 2 ^ k - t % 2 ^ k := by
  have hpos : 0 < 2 ^ k := Nat.pos_pow_of_pos k (by norm_num)
  rw [and_two_pow_window _ k w ht hw, Nat.add_div_right t hpos, Nat.mul_add, Nat.mul_one]
  have hm := Nat.div_add_mod t (2 ^ k)
  have hlt : t % 2 ^ k < 2 ^ k := Nat.mod_lt t hpos
  omega

/-- Claim C1, amended: the overflow period is the number of reference-clock
ticks remaining from the current clock value until the next HALF-range boundary
crossing — `0x800000` when the timer is 24-bit and `0x80000000` when it is
32-bit (the counter's most-significant-bit toggle), not the full wrap constants
`0x1000000`/`0x100000000` the original claim states — converted to wall time by
dividing by the fixed `ACPI_TIMER_FREQ` constant (and scaling to
microseconds). -/
theorem C1_overflow_period_msb_boundary (dev : acpi_t) (clock : Nat)
    (h : clock + 0x80000000 < 2 ^ 64) :
    acpi_get_overflow_period_ticks dev clock =
      (if dev.regs.timer32 then 0x80000000 else 0x800000) -
        clock % (if dev.regs.timer32 then 0x80000000 else 0x800000) ∧
    acpi_get_overflow_period dev clock =
      (((if dev.regs.timer32 then 0x80000000 else 0x800000) -
        clock % (if dev.regs.timer32 then 0x80000000 else 0x800000) : Nat) : ℚ) /
        (ACPI_TIMER_FREQ : ℚ) * 1000000 := by
  have h31 : (0x80000000 : Nat) = 2 ^ 31 := by norm_num
  have h23 : (0x800000 : Nat) = 2 ^ 23 := by norm_num
  have hm31 : (0xffffffffffffffff ^^^ 0x7fffffff : Nat) = 2 ^ 64 - 2 ^ 31 := by decide
  have hm23 : (0xffffffffffffffff ^^^ 0x7fffff : Nat) = 2 ^ 64 - 2 ^ 23 := by decide
  have h64 : (2 : Nat) ^ 64 = 0x10000000000000000 := by norm_num
  have part1 : acpi_get_overflow_period_ticks dev clock =
      (if dev.regs.timer32 then 0x80000000 else 0x800000) -
        clock % (if dev.regs.timer32 then 0x80000000 else 0x800000) := by
    cases hb : dev.regs.timer32 with
    | true =>
      simp only [acpi_get_overflow_period_ticks, hb, if_true]
      rw [hm31, h31]
      exact round_up_and_sub clock 31 64 (by norm_num) (by rw [← h31]; omega)
    | false =>
      simp only [acpi_get_overflow_period_ticks, hb, if_false]
      rw [hm23, h23]
      refine round_up_and_sub clock 23 64 (by norm_num) ?_
      rw [← h23, h64]
      rw [h64] at h
      omega
  refine ⟨part1, ?_⟩
  simp only [acpi_get_overflow_period, part1]

/-- Claim C1, counterexample to the claim as stated: with the 32-bit width and
the clock at 0, the ticks-to-overflow value computed by the code is
`0x80000000`, not the `0x100000000 - 0 % 0x100000000 = 0x100000000` that a
full-wrap boundary would give. -/
theorem C1_counterexample :
    acpi_get_overflow_period_ticks dev32 0 ≠ 0x100000000 - 0 % 0x100000000 := by
  decide

/-- Claim C1, witness: the amended theorem applied at the 32-bit device and
clock value 5. -/
theorem C1_witness :
    5 + 0x80000000 < 2 ^ 64 ∧
    acpi_get_overflow_period_ticks dev32 5 =
      (if dev32.regs.timer32 then 0x80000000 else 0x800000) -
        5 % (if dev32.regs.timer32 then 0x80000000 else 0x800000) :=
  ⟨by norm_num, (C1_overflow_period_msb_boundary dev32 5 (by norm_num)).1⟩

/-- In a write-1-to-clear update of a 16-bit register, every bit that changes
lies inside the clearable-bits mask `m`: the xor of old and new values is
contained in `m`. -/
theorem w1c_changes_within_mask (V B m : Nat) (hV : V < 2 ^ 16) :
    ((V &&& (0xffff ^^^ (B &&& m))) ^^^ V) &&& m = (V &&& (0xffff ^^^ (B &&& m))) ^^^ V := by
  have h16 : (0xffff : Nat) = 2 ^ 16 - 1 := by norm_num
  apply Nat.eq_of_testBit_eq
  intro i
  simp only [Nat.testBit_and, Nat.testBit_xor, h16, Nat.testBit_two_pow_sub_one]
  by_cases hi : i < 16
  · have hd : decide (i < 16) = true := decide_eq_true hi
    simp only [hd]
    cases V.testBit i <;> cases B.testBit i <;> cases m.testBit i <;> decide
  · have hv : V.testBit i = false :=
      Nat.testBit_lt_two_pow
        (lt_of_lt_of_le hV (Nat.pow_le_pow_right (by norm_num) (by omega)))
    simp [hi, hv]

/-- Claim C3: a write of pattern `B` to the PMSTS status register at value `V`
leaves the register at `V & ~(B restricted to the clearable mask 0x8d31)`;
every changed bit lies inside the mask (bits outside it are unaffected), and
no status bit is ever set by the write (the new value or-ed with the old one is
the old one). -/
theorem C3_status_write_one_to_clear (size addr0 val : Nat) (dev : acpi_t)
    (h : addr0 &&& 0x3f = 0x00 ∨ addr0 &&& 0x3f = 0x01)
    (hV : dev.regs.pmsts < 2 ^ 16) :
    (acpi_reg_write_common_regs size addr0 val dev).1.regs.pmsts =
      dev.regs.pmsts &&& (0xffff ^^^
        ((val <<< (((addr0 &&& 0x3f) &&& 1) <<< 3)) &&& 0x8d31)) ∧
    ((acpi_reg_write_common_regs size addr0 val dev).1.regs.pmsts ^^^ dev.regs.pmsts) &&& 0x8d31 =
      (acpi_reg_write_common_regs size addr0 val dev).1.regs.pmsts ^^^ dev.regs.pmsts ∧
    (acpi_reg_write_common_regs size addr0 val dev).1.regs.pmsts ||| dev.regs.pmsts =
      dev.regs.pmsts := by
  have hpm : (acpi_reg_write_common_regs size addr0 val dev).1.regs.pmsts =
      dev.regs.pmsts &&& (0xffff ^^^
        ((val <<< (((addr0 &&& 0x3f) &&& 1) <<< 3)) &&& 0x8d31)) := by
    rcases h with h | h <;> simp [acpi_reg_write_common_regs, h]
  refine ⟨hpm, ?_, ?_⟩
  · rw [hpm]
    exact w1c_changes_within_mask dev.regs.pmsts _ 0x8d31 hV
  · rw [hpm]
    exact and_or_cancel _ _

/-- Claim C3, witness: the theorem applied at a byte write of `0x31` to status
offset 0 of a device whose PMSTS holds every clearable bit. -/
theorem C3_witness :
    (acpi_reg_write_common_regs 1 0x00 0x31 devC3).1.regs.pmsts =
      devC3.regs.pmsts &&& (0xffff ^^^
        ((0x31 <<< (((0x00 &&& 0x3f) &&& 1) <<< 3)) &&& 0x8d31)) :=
  (C3_status_write_one_to_clear 1 0x00 0x31 devC3 (Or.inl (by decide)) (by decide)).1

/-- Claim C4: every invocation of `acpi_update_irq` concludes (its trace ends)
with a timer re-arm exactly when the timer-overflow interrupt enable bit is set
in PMEN and the timer-overflow status bit is clear in PMSTS, and with a timer
cancellation otherwise. -/
theorem C4_update_irq_concludes_with_rearm (dev : acpi_t) :
    (acpi_update_irq dev).getLast? =
      some (if (dev.regs.pmen &&& TMROF_EN != 0) && (dev.regs.pmsts &&& TMROF_STS == 0)
        then Effect.timerOnAuto else Effect.timerStop) := by
  cases hc : (dev.regs.pmen &&& TMROF_EN != 0) && (dev.regs.pmsts &&& TMROF_STS == 0) <;>
    simp [acpi_update_irq, acpi_timer_update, hc]

/-- Claim C9: the ALi soft-SMI status read returns 1 and simultaneously forces
the stored `ali_soft_smi` field to 1, whatever its previous value. -/
theorem C9_ali_soft_smi_read_latches (dev : acpi_t) :
    (acpi_ali_soft_smi_status_read dev).1 = 1 ∧
    (acpi_ali_soft_smi_status_read dev).2.regs.ali_soft_smi = 1 :=
  ⟨rfl, rfl⟩

/-- Claim C2, code-bug evidence: on both the ALi profile (offset 0x1e) and the
Intel ICH2 profile (offset 0x2e), a GPE1_EN write merges the written byte into
the current value of GPE0's enable register `gpen` instead of `gpen1`.  With
`gpen = 0` and `gpen1` holding its full valid mask, writing byte 0 to the low
lane wipes the high GPE1_EN byte: the result is 0, where a merge reading the
register being written would preserve its high byte (0x0c00 and 0x0900
respectively). -/
theorem C2_gpe1_en_write_reads_gpe0 :
    ((acpi_reg_write_ali 1 0x1e 0x00 devALI).1.regs.gpen1 = 0 ∧
      ((devALI.regs.gpen1 &&& (0xffff ^^^ 0xff)) ||| 0x00) &&& 0x0c01 = 0x0c00) ∧
    ((acpi_reg_write_intel_ich2 1 0x2e 0x00 devICH2).1.regs.gpen1 = 0 ∧
      ((devICH2.regs.gpen1 &&& (0xffff ^^^ 0xff)) ||| 0x00) &&& 0x097d = 0x0900) := by
  decide

/-- Claim C5, amended: a sleep-enable control-register write whose decoded
sleep type selects a suspend (non-power-off) effect set — provided it is not
intercepted by the Intel ICH2 sleep-SMI trap (ICH2 profile with SMI_EN bit 4
set and the written sleep-type field's low bit set) — performs exactly the
flagged effects in the fixed order NVRAM suspend marker, reset-all-PCI-devices,
CPU alternate-reset-mode change, PCI-bus reset, keyboard-controller reset,
A20-line restore, cache flush, CPU reset, then pause(1) and one resume callback
scheduled at 50 microseconds, and merges the control register under its valid
mask. -/
theorem C5_suspend_sequence (size val : Nat) (dev : acpi_t)
    (hslp : val &&& 0x20 ≠ 0)
    (hsus : dev.suspend_types.getD ((val >>> 2) &&& 7) 0 &&& SUS_SUSPEND ≠ 0)
    (hpo : dev.suspend_types.getD ((val >>> 2) &&& 7) 0 &&& SUS_POWER_OFF = 0)
    (htrap : ¬(dev.vendor = Vendor.VEN_INTEL_ICH2 ∧ val &&& 4 ≠ 0 ∧
      dev.regs.smi_en &&& 0x00000010 ≠ 0)) :
    acpi_reg_write_common_regs size 0x05 val dev =
      ({ dev with regs.pmcntrl :=
          ((dev.regs.pmcntrl &&& (0xffff ^^^ (0xff <<< 8))) ||| (val <<< 8)) &&& 0x3f07 },
        (if dev.suspend_types.getD ((val >>> 2) &&& 7) 0 &&& SUS_NVR ≠ 0 then
          [Effect.nvramWrite 0x000f 0xff] else []) ++
        (if dev.suspend_types.getD ((val >>> 2) &&& 7) 0 &&& SUS_RESET_PCI ≠ 0 then
          [Effect.resetAllPci] else []) ++
        (if dev.suspend_types.getD ((val >>> 2) &&& 7) 0 &&& SUS_RESET_CPU ≠ 0 then
          [Effect.cpuAltResetClear] else []) ++
        (if dev.suspend_types.getD ((val >>> 2) &&& 7) 0 &&& SUS_RESET_PCI ≠ 0 then
          [Effect.pciReset, Effect.keyboardReset,
           Effect.memA20AltClear, Effect.memA20Recalc] else []) ++
        (if dev.suspend_types.getD ((val >>> 2) &&& 7) 0 &&&
            (SUS_RESET_CPU ||| SUS_RESET_CACHE) ≠ 0 then [Effect.flushCaches] else []) ++
        (if dev.suspend_types.getD ((val >>> 2) &&& 7) 0 &&& SUS_RESET_CPU ≠ 0 then
          [Effect.cpuReset] else []) ++
        [Effect.platPause 1, Effect.scheduleResume 50]) := by
  have h5 : (0x05 : Nat) &&& 0x3f = 5 := by decide
  have hnt : ¬(val &&& 4 ≠ 0 ∧ dev.regs.smi_en &&& 0x00000010 ≠ 0 ∧
      dev.vendor = Vendor.VEN_INTEL_ICH2) := fun h => htrap ⟨h.2.2, h.1, h.2.1⟩
  have hpo' : (dev.suspend_types[val >>> 2 &&& 7]?).getD 0 &&& SUS_POWER_OFF = 0 := by
    simpa using hpo
  have hsus' : ¬((dev.suspend_types[val >>> 2 &&& 7]?).getD 0 &&& SUS_SUSPEND = 0) := by
    simpa using hsus
  simp only [acpi_reg_write_common_regs, h5]
  norm_num [hslp, hnt, hpo', hsus']
  rfl

/-- Claim C5, witness: the amended theorem applied to an Intel PIIX4 device
with sleep type 1 (suspend + NVRAM + reset-CPU + reset-PCI), spelling out the
full ordered effect trace. -/
theorem C5_witness :
    (0x24 : Nat) &&& 0x20 ≠ 0 ∧
    acpi_reg_write_common_regs 1 0x05 0x24 devINTEL =
      ({ devINTEL with regs.pmcntrl :=
          ((devINTEL.regs.pmcntrl &&& (0xffff ^^^ (0xff <<< 8))) ||| (0x24 <<< 8)) &&& 0x3f07 },
        [Effect.nvramWrite 0x000f 0xff, Effect.resetAllPci, Effect.cpuAltResetClear,
         Effect.pciReset, Effect.keyboardReset, Effect.memA20AltClear, Effect.memA20Recalc,
         Effect.flushCaches, Effect.cpuReset, Effect.platPause 1, Effect.scheduleResume 50]) :=
  ⟨by decide, by
    have h := C5_suspend_sequence 1 0x24 devINTEL (by decide) (by decide) (by decide) (by decide)
    rw [h]
    decide⟩

/-- Claim C5, counterexample to the claim as stated: on an ICH2 device with
SLP_SMI_EN set, a sleep-enable write whose type decodes to a suspend
(non-power-off) effect set performs none of the suspend effects — the sleep-SMI
trap intercepts it. -/
theorem C5_counterexample :
    devICH2.suspend_types.getD ((0x24 >>> 2) &&& 7) 0 &&& SUS_SUSPEND ≠ 0 ∧
    devICH2.suspend_types.getD ((0x24 >>> 2) &&& 7) 0 &&& SUS_POWER_OFF = 0 ∧
    Effect.platPause 1 ∉ (acpi_reg_write_common_regs 1 0x05 0x24 devICH2).2 ∧
    Effect.cpuAltResetClear ∉ (acpi_reg_write_common_regs 1 0x05 0x24 devICH2).2 := by
  decide

/-- Claim C6, amended: a sleep-enable control-register write whose decoded
sleep type includes the power-off effect — provided it is not intercepted by
the Intel ICH2 sleep-SMI trap — makes exactly one power-off request and
returns immediately: the register file is completely untouched (the control
register's own merge is skipped) and the trace is exactly the one power-off
call. -/
theorem C6_power_off_terminal (size val : Nat) (dev : acpi_t)
    (hslp : val &&& 0x20 ≠ 0)
    (hpo : dev.suspend_types.getD ((val >>> 2) &&& 7) 0 &&& SUS_POWER_OFF ≠ 0)
    (htrap : ¬(dev.vendor = Vendor.VEN_INTEL_ICH2 ∧ val &&& 4 ≠ 0 ∧
      dev.regs.smi_en &&& 0x00000010 ≠ 0)) :
    acpi_reg_write_common_regs size 0x05 val dev = (dev, [Effect.powerOff]) := by
  have h5 : (0x05 : Nat) &&& 0x3f = 5 := by decide
  have hnt : ¬(val &&& 4 ≠ 0 ∧ dev.regs.smi_en &&& 0x00000010 ≠ 0 ∧
      dev.vendor = Vendor.VEN_INTEL_ICH2) := fun h => htrap ⟨h.2.2, h.1, h.2.1⟩
  have hpo' : ¬((dev.suspend_types[val >>> 2 &&& 7]?).getD 0 &&& SUS_POWER_OFF = 0) := by
    simpa using hpo
  simp only [acpi_reg_write_common_regs, h5]
  norm_num [hslp, hnt, hpo']

/-- Claim C6, witness: the amended theorem applied to a VIA device writing
sleep type 0, which its table maps to power-off. -/
theorem C6_witness :
    (0x20 : Nat) &&& 0x20 ≠ 0 ∧
    acpi_reg_write_common_regs 1 0x05 0x20 devVIA = (devVIA, [Effect.powerOff]) :=
  ⟨by decide, C6_power_off_terminal 1 0x20 devVIA (by decide) (by decide) (by decide)⟩

/-- Claim C6, counterexample to the claim as stated: on an ICH2 device with
SLP_SMI_EN set, writing sleep type 7 — which the device's table decodes to
power-off — makes no power-off call at all (the sleep-SMI trap fires
instead). -/
theorem C6_counterexample :
    devICH2.suspend_types.getD ((0x3c >>> 2) &&& 7) 0 &&& SUS_POWER_OFF ≠ 0 ∧
    (0x3c : Nat) &&& 0x20 ≠ 0 ∧
    Effect.powerOff ∉ (acpi_reg_write_common_regs 1 0x05 0x3c devICH2).2 := by
  decide

/-- Every effect ever emitted by `acpi_raise_smi` is an SMI pulse. -/
theorem raise_smi_effect_only_pulse (d : acpi_t) (n : Nat) (e : Effect)
    (he : e ∈ (acpi_raise_smi d n).2) : e = Effect.smiPulse := by
  unfold acpi_raise_smi at he
  split_ifs at he <;> simp_all

/-- `acpi_update_irq` emits only IRQ-line and timer effects — never a
sleep-sequence or power-off effect. -/
theorem update_irq_no_sleep_effects (d : acpi_t) :
    Effect.powerOff ∉ acpi_update_irq d ∧
    Effect.platPause 1 ∉ acpi_update_irq d ∧
    Effect.scheduleResume 50 ∉ acpi_update_irq d ∧
    Effect.nvramWrite 0x000f 0xff ∉ acpi_update_irq d ∧
    Effect.cpuReset ∉ acpi_update_irq d := by
  unfold acpi_update_irq acpi_timer_update
  split_ifs <;> (try simp) <;> (try split_ifs) <;> simp

/-- On the ICH2 profile `acpi_raise_smi` never mutates the device state (the
VIA lock, Intel GLBCTL and ALi latch side effects belong to other profiles). -/
theorem raise_smi_ich2_state (d : acpi_t) (n : Nat)
    (hv : d.vendor = Vendor.VEN_INTEL_ICH2) : (acpi_raise_smi d n).1 = d := by
  unfold acpi_raise_smi
  split_ifs <;> simp_all

/-- Claim C7, amended: on the Intel ICH2 profile, a sleep-enable write whose
written value also has bit 2 set (the sleep-type field's low bit — the trap
condition the code actually tests), issued while SMI_EN bit 4 (SLP_SMI_EN) is
set, sets SMI status bit 4 and invokes the SMI-raise routine instead of any
part of the sleep sequence: the trace is exactly the raise-SMI effects followed
by the IRQ recomputation, with no power-off, no pause and no resume
scheduling; the SMI line is actually pulsed whenever the ICH2 raise gating
(`glbctl` bit 0 clear, SMI_EN bit 0 set) permits. -/
theorem C7_ich2_sleep_smi_trap (size val : Nat) (dev : acpi_t)
    (hv : dev.vendor = Vendor.VEN_INTEL_ICH2)
    (hslp : val &&& 0x20 ≠ 0) (h4 : val &&& 4 ≠ 0)
    (hsmi : dev.regs.smi_en &&& 0x00000010 ≠ 0) :
    acpi_reg_write_intel_ich2 size 0x05 val dev =
      ({ dev with
          regs.smi_sts := dev.regs.smi_sts ||| 0x00000010,
          regs.pmcntrl :=
            ((dev.regs.pmcntrl &&& (0xffff ^^^ (0xff <<< 8))) ||| (val <<< 8)) &&& 0x3f07 },
        (acpi_raise_smi { dev with regs.smi_sts := dev.regs.smi_sts ||| 0x00000010 } 1).2 ++
          acpi_update_irq { dev with
            regs.smi_sts := dev.regs.smi_sts ||| 0x00000010,
            regs.pmcntrl :=
              ((dev.regs.pmcntrl &&& (0xffff ^^^ (0xff <<< 8))) ||| (val <<< 8)) &&& 0x3f07 }) ∧
    Effect.powerOff ∉ (acpi_reg_write_intel_ich2 size 0x05 val dev).2 ∧
    Effect.platPause 1 ∉ (acpi_reg_write_intel_ich2 size 0x05 val dev).2 ∧
    Effect.scheduleResume 50 ∉ (acpi_reg_write_intel_ich2 size 0x05 val dev).2 ∧
    (dev.regs.glbctl &&& 0x01 = 0 → dev.regs.smi_en &&& 0x01 ≠ 0 →
      Effect.smiPulse ∈ (acpi_reg_write_intel_ich2 size 0x05 val dev).2) := by
  have h7 : (0x05 : Nat) &&& 0x7f = 5 := by decide
  have h5 : (5 : Nat) &&& 0x3f = 5 := by decide
  have hEq : acpi_reg_write_intel_ich2 size 0x05 val dev =
      ({ dev with
          regs.smi_sts := dev.regs.smi_sts ||| 0x00000010,
          regs.pmcntrl :=
            ((dev.regs.pmcntrl &&& (0xffff ^^^ (0xff <<< 8))) ||| (val <<< 8)) &&& 0x3f07 },
        (acpi_raise_smi { dev with regs.smi_sts := dev.regs.smi_sts ||| 0x00000010 } 1).2 ++
          acpi_update_irq { dev with
            regs.smi_sts := dev.regs.smi_sts ||| 0x00000010,
            regs.pmcntrl :=
              ((dev.regs.pmcntrl &&& (0xffff ^^^ (0xff <<< 8))) ||| (val <<< 8)) &&& 0x3f07 }) := by
    simp only [acpi_reg_write_intel_ich2, h7]
    simp only [acpi_reg_write_common_regs, h5]
    norm_num [hslp, h4, hsmi, hv, raise_smi_ich2_state,
      (by decide : (1 : Nat) <<< 3 = 8)]
  refine ⟨hEq, ?_, ?_, ?_, ?_⟩
  · rw [hEq]
    intro hm
    rcases List.mem_append.mp hm with hm | hm
    · exact absurd (raise_smi_effect_only_pulse _ _ _ hm) (by decide)
    · exact (update_irq_no_sleep_effects _).1 hm
  · rw [hEq]
    intro hm
    rcases List.mem_append.mp hm with hm | hm
    · exact absurd (raise_smi_effect_only_pulse _ _ _ hm) (by decide)
    · exact (update_irq_no_sleep_effects _).2.1 hm
  · rw [hEq]
    intro hm
    rcases List.mem_append.mp hm with hm | hm
    · exact absurd (raise_smi_effect_only_pulse _ _ _ hm) (by decide)
    · exact (update_irq_no_sleep_effects _).2.2.1 hm
  · intro hg hs
    rw [hEq]
    refine List.mem_append.mpr (Or.inl ?_)
    have hs2 : dev.regs.smi_en % 2 = 1 := by
      have hm := Nat.and_one_is_mod dev.regs.smi_en
      omega
    simp [acpi_raise_smi, hg, hv, hs2]

/-- Claim C7, witness: on a concrete ICH2 device with SLP_SMI_EN and
GBL_SMI_EN set, the trapped sleep-enable write actually pulses the SMI line. -/
theorem C7_witness :
    Effect.smiPulse ∈ (acpi_reg_write_intel_ich2 1 0x05 0x24 devICH2g).2 :=
  (C7_ich2_sleep_smi_trap 1 0x24 devICH2g (by decide) (by decide) (by decide)
    (by decide)).2.2.2.2 (by decide) (by decide)

/-- Claim C7, counterexample to the claim as stated: with SLP_SMI_EN set but a
sleep-type value whose low bit is clear (type 6, `val = 0x38`), the ICH2 write
is NOT trapped — it executes the sleep sequence (here a power-off) and leaves
the SMI status register untouched. -/
theorem C7_counterexample :
    devICH2.regs.smi_en &&& 0x00000010 ≠ 0 ∧ (0x38 : Nat) &&& 0x20 ≠ 0 ∧
    Effect.powerOff ∈ (acpi_reg_write_intel_ich2 1 0x05 0x38 devICH2).2 ∧
    (acpi_reg_write_intel_ich2 1 0x05 0x38 devICH2).1.regs.smi_sts = 0 := by
  decide

/-- Claim C8, amended: on the two VIA profiles, an SMI pulse is only ever
emitted when the lock is clear or no SMI is active; when SMI generation is
enabled (`glbctl` bit 0 — a gate the original claim omits) and that
lock condition holds, the SMI-active flag becomes true afterwards; and while
both lock and active are set no pulse is ever emitted. -/
theorem C8_via_smi_lock_arbitration (dev : acpi_t) (ds : Nat)
    (hv : dev.vendor = Vendor.VEN_VIA ∨ dev.vendor = Vendor.VEN_VIA_596B) :
    (Effect.smiPulse ∈ (acpi_raise_smi dev ds).2 →
      dev.regs.smi_lock = false ∨ dev.regs.smi_active = false) ∧
    (dev.regs.glbctl &&& 0x01 ≠ 0 →
      (dev.regs.smi_lock = false ∨ dev.regs.smi_active = false) →
      (acpi_raise_smi dev ds).1.regs.smi_active = true) ∧
    (dev.regs.smi_lock = true → dev.regs.smi_active = true →
      Effect.smiPulse ∉ (acpi_raise_smi dev ds).2) := by
  refine ⟨?_, ?_, ?_⟩
  · intro hm
    unfold acpi_raise_smi at hm
    rcases hv with hv | hv <;> split_ifs at hm <;> simp_all
  · intro hg hl
    unfold acpi_raise_smi
    rcases hv with hv | hv <;> split_ifs <;> simp_all
  · intro hl ha
    intro hm
    unfold acpi_raise_smi at hm
    rcases hv with hv | hv <;> split_ifs at hm <;> simp_all

/-- Claim C8, witness: on a VIA device with SMI generation enabled, lock clear
and no SMI active, a raise request leaves the SMI-active flag set. -/
theorem C8_witness :
    (acpi_raise_smi devVIAg 1).1.regs.smi_active = true :=
  (C8_via_smi_lock_arbitration devVIAg 1 (Or.inl rfl)).2.1 (by decide) (by decide)

/-- Claim C8, counterexample to the claim as stated: on a VIA device with SMI
generation disabled (`glbctl = 0`), the lock condition holds (both flags
clear), yet a raise request does not set the SMI-active flag. -/
theorem C8_counterexample :
    (devVIA.regs.smi_lock = false ∨ devVIA.regs.smi_active = false) ∧
    (acpi_raise_smi devVIA 1).1.regs.smi_active = false := by
  decide

/-- Claim C10: on the SMC auxiliary window, a write to the SCI Status offsets
0x00/0x01 touches only the dedicated `gpscists` field (write-1-to-clear under
mask 0x000c); auxiliary reads at those same offsets return `pcntrl` bytes and
are therefore identical before and after the write; and no auxiliary read at
any offset observes `gpscists` at all. -/
theorem C10_smc_aux_sci_status_isolated (size size2 val a b x : Nat) (dev : acpi_t)
    (h : a &&& 0x07 = 0x00 ∨ a &&& 0x07 = 0x01) :
    (acpi_aux_reg_write_smc size a val dev).1.regs =
      { dev.regs with gpscists := dev.regs.gpscists &&&
        (0xffff ^^^ ((val <<< (((a &&& 0x07) &&& 1) <<< 3)) &&& 0x000c)) } ∧
    acpi_aux_reg_read_smc size2 0x00 (acpi_aux_reg_write_smc size a val dev).1 =
      acpi_aux_reg_read_smc size2 0x00 dev ∧
    acpi_aux_reg_read_smc size2 0x01 (acpi_aux_reg_write_smc size a val dev).1 =
      acpi_aux_reg_read_smc size2 0x01 dev ∧
    acpi_aux_reg_read_smc size2 b { dev with regs.gpscists := x } =
      acpi_aux_reg_read_smc size2 b dev := by
  have hw : (acpi_aux_reg_write_smc size a val dev).1 =
      { dev with regs.gpscists := dev.regs.gpscists &&&
        (0xffff ^^^ ((val <<< (((a &&& 0x07) &&& 1) <<< 3)) &&& 0x000c)) } := by
    rcases h with h | h <;> simp [acpi_aux_reg_write_smc, h]
  refine ⟨by rw [hw], ?_, ?_, ?_⟩
  · rw [hw]
    simp [acpi_aux_reg_read_smc]
  · rw [hw]
    simp [acpi_aux_reg_read_smc]
  · simp [acpi_aux_reg_read_smc]

/-- Claim C10, witness: the theorem applied at a concrete SMC device, write
`0xff` to auxiliary offset 0; the auxiliary read at offset 0 is unchanged. -/
theorem C10_witness :
    acpi_aux_reg_read_smc 1 0x00 (acpi_aux_reg_write_smc 1 0x00 0xff devSMC).1 =
      acpi_aux_reg_read_smc 1 0x00 devSMC :=
  (C10_smc_aux_sci_status_isolated 1 1 0xff 0x00 4 5 devSMC (Or.inl (by decide))).2.1
